import Mathlib

/-!
Verification of the single-file web application in
src/ansible_docker_project/app.py.

The source registers a single route at path "/" whose handler `home`
unconditionally returns a constant greeting string, and, under the
module-is-main guard, starts the development server on host 0.0.0.0,
port 5000.

The embedding below models the application together with the routing
behaviour of its web framework around that one registered route:
a matched GET on "/" invokes the handler; the framework additionally
registers automatic HEAD and OPTIONS handlers for a GET route; any
other method on "/" receives the default method-not-allowed response;
any other path receives the default not-found response; a handler that
raises would be turned into a 500 response by the framework.
-/

namespace AnsibleDockerApp

/-- HTTP request methods relevant to the dispatch behaviour. -/
inductive Method where
  | GET
  | HEAD
  | OPTIONS
  | POST
  | PUT
  | DELETE
  | PATCH
  deriving DecidableEq, Repr

/-- An HTTP request: the method and path are what routing inspects; the
query string, headers and body are carried so that claims about the
response not depending on them can be stated. -/
structure Request where
  method : Method
  path : String
  query : String
  headers : List (String × String)
  body : String
  deriving DecidableEq, Repr

/-- An HTTP response: status code and body. -/
structure Response where
  status : Nat
  body : String
  deriving DecidableEq, Repr

/-- The constant greeting string from app.py line 6, verbatim. -/
def greeting : String :=
  "Hello, I am Siddharth Chitikesi, Roll No: BCD21 ,this is my simple web app deployed with Ansible and Docker!"

/-- Embedding of the handler `home` (app.py lines 5 to 6): its body is a
single return of the constant string literal. -/
def home : String := greeting

/-- Embedding of one invocation of `home` as the framework sees it: a
handler either produces a body or raises. The body of `home` is a single
unconditional return of a string literal, so the invocation always
succeeds with that string. -/
def callHome : Except String String := Except.ok home

/-- Modelled from the spec: the framework dispatch around the single
registered route, which is not part of src/. The spec delegates
unmatched paths to the default not-found response and non-GET methods on
"/" to the default method-not-allowed handling; the framework also adds
automatic HEAD and OPTIONS handlers to a route registered for GET, and
converts a raising handler into a 500 response. -/
def dispatch (req : Request) : Response :=
  if req.path = "/" then
    match req.method with
    | Method.GET =>
      match callHome with
      | Except.ok b => ⟨200, b⟩
      | Except.error _ => ⟨500, "Internal Server Error"⟩
    | Method.HEAD =>
      match callHome with
      | Except.ok _ => ⟨200, ""⟩
      | Except.error _ => ⟨500, "Internal Server Error"⟩
    | Method.OPTIONS => ⟨200, ""⟩
    | _ => ⟨405, "Method Not Allowed"⟩
  else ⟨404, "Not Found"⟩

/-- State-passing embedding of one handler invocation: the body of `home`
performs no reads or writes of program state (no assignment, no I/O), so
in state-passing style the state threads through unchanged next to the
pure dispatch result. -/
def handleSt {σ : Type} (s : σ) (req : Request) : Response × σ :=
  (dispatch req, s)

/-- The host and port a started server listens on. -/
structure ServerBinding where
  host : String
  port : Nat
  deriving DecidableEq, Repr

/-- Embedding of app.py lines 8 to 9: app.run(host=0.0.0.0, port=5000) is
executed only when the module name is __main__; importing the module runs
no server, which `none` records. -/
def mainEntry (name : String) : Option ServerBinding :=
  if name = "__main__" then some ⟨"0.0.0.0", 5000⟩ else none

/-- C1: every GET request to path "/" receives status 200 and a body equal,
byte for byte, to the exact greeting string. -/
theorem get_root_ok (req : Request)
    (hm : req.method = Method.GET) (hp : req.path = "/") :
    (dispatch req).status = 200 ∧ (dispatch req).body =
      "Hello, I am Siddharth Chitikesi, Roll No: BCD21 ,this is my simple web app deployed with Ansible and Docker!" := by
  simp [dispatch, hp, hm, callHome, home, greeting]

/-- C1 witness: a concrete GET "/" request with a query string, headers and
a body receives 200 and the exact greeting string. -/
theorem get_root_ok_witness :
    (dispatch ⟨Method.GET, "/", "a=1", [("X-Test", "y")], "ignored"⟩).status = 200 ∧
    (dispatch ⟨Method.GET, "/", "a=1", [("X-Test", "y")], "ignored"⟩).body =
      "Hello, I am Siddharth Chitikesi, Roll No: BCD21 ,this is my simple web app deployed with Ansible and Docker!" :=
  get_root_ok ⟨Method.GET, "/", "a=1", [("X-Test", "y")], "ignored"⟩ rfl rfl

/-- C2: the handler is deterministic and idempotent: invoking it twice in
succession on the same request, threading the program state through the
first invocation into the second, yields identical responses (hence
identical bodies for repeated GET "/" calls). -/
theorem repeated_calls_identical {σ : Type} (s : σ) (req : Request) :
    (handleSt ((handleSt s req).2) req).1 = (handleSt s req).1 := rfl

/-- C3: every request whose path is not "/" receives the default not-found
status 404. -/
theorem non_root_not_found (req : Request) (hp : req.path ≠ "/") :
    (dispatch req).status = 404 := by
  simp [dispatch, hp]

/-- C3 witness: GET "/missing" yields 404. -/
theorem non_root_not_found_witness :
    (dispatch ⟨Method.GET, "/missing", "", [], ""⟩).status = 404 :=
  non_root_not_found ⟨Method.GET, "/missing", "", [], ""⟩ (by decide)

/-- C4 counterexample: the claim fails as stated: a HEAD request to "/" is
a non-GET request, yet its status is 200, neither 405 nor 404. -/
theorem non_get_root_rule_fails_at_head :
    ¬ (∀ req : Request, req.path = "/" → req.method ≠ Method.GET →
        (dispatch req).status = 405 ∨ (dispatch req).status = 404) := by
  intro h
  have hc := h ⟨Method.HEAD, "/", "", [], ""⟩ rfl (by decide)
  simp [dispatch, callHome] at hc

/-- C4 amended: every request to "/" whose method is none of GET, HEAD and
OPTIONS (e.g. POST, PUT, DELETE) receives status 405 or 404; in particular
POST "/" yields 404 or 405. -/
theorem non_automatic_methods_root_rejected (req : Request)
    (hp : req.path = "/") (hg : req.method ≠ Method.GET)
    (hh : req.method ≠ Method.HEAD) (ho : req.method ≠ Method.OPTIONS) :
    (dispatch req).status = 405 ∨ (dispatch req).status = 404 := by
  left
  obtain ⟨m, p, q, hs, b⟩ := req
  simp only at hp hg hh ho
  subst hp
  cases m <;> simp_all [dispatch]

/-- C4 witness: POST "/" yields status 405 (hence 405 or 404). -/
theorem non_automatic_methods_root_rejected_witness :
    (dispatch ⟨Method.POST, "/", "", [], ""⟩).status = 405 ∨
    (dispatch ⟨Method.POST, "/", "", [], ""⟩).status = 404 :=
  non_automatic_methods_root_rejected ⟨Method.POST, "/", "", [], ""⟩
    rfl (by decide) (by decide) (by decide)

/-- C5: the response to GET "/" does not depend on the query string, the
headers or the request body: any two GET "/" requests receive equal
responses. -/
theorem get_root_noninterference (r1 r2 : Request)
    (h1m : r1.method = Method.GET) (h2m : r2.method = Method.GET)
    (h1p : r1.path = "/") (h2p : r2.path = "/") :
    dispatch r1 = dispatch r2 := by
  simp [dispatch, h1p, h2p, h1m, h2m]

/-- C5 witness: two GET "/" requests differing in query string, headers and
body receive equal responses. -/
theorem get_root_noninterference_witness :
    dispatch ⟨Method.GET, "/", "a=1", [("Cookie", "s")], "b1"⟩ =
    dispatch ⟨Method.GET, "/", "z=9", [], "b2"⟩ :=
  get_root_noninterference
    ⟨Method.GET, "/", "a=1", [("Cookie", "s")], "b1"⟩
    ⟨Method.GET, "/", "z=9", [], "b2"⟩ rfl rfl rfl rfl

/-- C6: handling a request has no side effect on program state: the
state-passing embedding returns the state unchanged for every starting
state and every request. -/
theorem handler_preserves_state {σ : Type} (s : σ) (req : Request) :
    (handleSt s req).2 = s := rfl

/-- C7: run as a program (module name __main__), the server is started
listening on all interfaces (0.0.0.0) on port 5000. -/
theorem main_binds_all_interfaces_port_5000 :
    mainEntry "__main__" = some ⟨"0.0.0.0", 5000⟩ := rfl

/-- C8: HEAD and OPTIONS requests to "/" are permitted automatically by the
framework and receive status 200 rather than 405 or 404. -/
theorem automatic_head_options_root_ok (req : Request)
    (hp : req.path = "/")
    (hm : req.method = Method.HEAD ∨ req.method = Method.OPTIONS) :
    (dispatch req).status = 200 := by
  rcases hm with hm | hm <;> simp [dispatch, hp, hm, callHome]

/-- C8 witness: a concrete HEAD "/" request receives status 200. -/
theorem automatic_head_options_root_ok_witness :
    (dispatch ⟨Method.HEAD, "/", "", [], ""⟩).status = 200 :=
  automatic_head_options_root_ok ⟨Method.HEAD, "/", "", [], ""⟩ rfl (Or.inl rfl)

/-- C9: the handler is total and never raises: invoking `home` always
succeeds with the greeting, so the 500 internal-error branch of the
dispatch is unreachable for every request. -/
theorem no_internal_error :
    callHome = Except.ok greeting ∧
      ∀ req : Request, (dispatch req).status ≠ 500 := by
  refine ⟨rfl, ?_⟩
  intro req
  obtain ⟨m, p, q, hs, b⟩ := req
  by_cases hp : p = "/"
  · cases m <;> simp [dispatch, hp, callHome]
  · simp [dispatch, hp]

/-- C10: importing the module (module name other than __main__) does not
start the server: no binding is created. -/
theorem import_runs_no_server (name : String) (h : name ≠ "__main__") :
    mainEntry name = none := by
  simp [mainEntry, h]

/-- C10 witness: under the import name app, no server is started. -/
theorem import_runs_no_server_witness : mainEntry "app" = none :=
  import_runs_no_server "app" (by decide)

end AnsibleDockerApp
